import Mathlib

/-
Verification of the `value_ptr` library (a value-semantics smart pointer for
C++) against its natural-language specification.

The development shallowly embeds the parts of the source the claims are
about:

* the default policies' array loops (`default_copy<T[]>::replicate`,
  `default_clone<T[]>::replicate`, their fixed-extent `T[N]` variants and
  `default_destroy<T[]>::destroy` / `default_destroy<T[N]>::destroy` from
  value_ptr.h) as functions from per-element behaviour to the list of
  observable events (ABI cookie queries, allocations, element
  constructions/destructions, block frees) plus an outcome (normal return,
  propagated exception, or `std::terminate`);
* the `value_ptr` handle itself (value_ptr.hpp) as a state record of the
  held pointer and the handler component of the internal tuple `c`, with
  `release`/`reset`/destructor/move/copy operations returning the calls they
  make into the handler;
* the clone detector (`Cloneable.h`) and the slice-safety gate
  (the master constructors' static_assert together with
  `default_replicate::slice_safe`) over a small model of C++ classes
  recording exactly the attributes the metaprogram observes.
-/

namespace ValuePtr

/-- Observable events of the default policies: `query n` is a call to
`ABI::arraySize` returning `n` (a read of the array cookie), `alloc n` a call
to `ABI::newArray<T>(n)`, `construct i` a successful element construction at
index `i`, `destruct i` a successful element destruction at index `i`,
`free` a call to `ABI::delArray`, and `delScalar` a scalar `delete p`. -/
inductive Ev where
  | query (n : Nat)
  | alloc (n : Nat)
  | construct (i : Nat)
  | destruct (i : Nat)
  | free
  | delScalar
deriving DecidableEq

/-- Result of an array replication: returned null (null input), returned a
new array, propagated the exception thrown by the element operation at index
`k`, or reached `std::terminate` (a destructor threw during rollback). -/
inductive ArrOutcome where
  | retNull
  | retNew
  | raised (k : Nat)
  | term
deriving DecidableEq

/-- Result of an array destruction: completed normally, re-raised the
exception thrown by the destructor at index `k`, or reached
`std::terminate`. -/
inductive DOutcome where
  | ok
  | raised (k : Nat)
  | term
deriving DecidableEq

/-- The forward construction loop `for (i = 0; i < n; i++) ...;` of the array
replicate, at index `i` with `rem` iterations left: `elemOk t` tells whether
the element operation (copy-construction `new(ret+t) T{p[t]}` or placement
clone `(p+t)->clone(ret+t)`) at index `t` returns normally. Returns the
construction events and `some k` when the operation at `k` threw
(`none`: all elements constructed). -/
def buildFrom (elemOk : Nat → Bool) : Nat → Nat → List Ev × Option Nat
  | _, 0 => ([], none)
  | i, rem + 1 =>
    if elemOk i then
      let r := buildFrom elemOk (i + 1) rem
      (Ev.construct i :: r.1, r.2)
    else
      ([], some i)

/-- The rollback loop `while (i--) { try { (ret+i)->~T(); } catch (...)
{ std::terminate(); } }` of the catch blocks: destructs indices
`i-1, …, 0`; `dtorOk t` tells whether the destructor at index `t` returns
normally. Returns the destruction events and `false` when a destructor threw,
i.e. `std::terminate` was reached (the loop stops there). -/
def rollback (dtorOk : Nat → Bool) : Nat → List Ev × Bool
  | 0 => ([], true)
  | i + 1 =>
    if dtorOk i then
      let r := rollback dtorOk i
      (Ev.destruct i :: r.1, r.2)
    else
      ([], false)

/-- The try-block loop `while (i--) { (p+i)->~T(); }` of the array destroy:
destructs indices `i-1, …, 0` until a destructor throws; returns the events
and `some j` when the destructor at index `j` threw first. -/
def destroyFrom (dtorOk : Nat → Bool) : Nat → List Ev × Option Nat
  | 0 => ([], none)
  | i + 1 =>
    if dtorOk i then
      let r := destroyFrom dtorOk i
      (Ev.destruct i :: r.1, r.2)
    else
      ([], some i)

/-- The shared body of `default_copy<T[], ABI>::replicate` (value_ptr.h
lines 633-655) and `default_clone<T[], ABI>::replicate` (lines 716-738),
which differ only in the per-element operation: a null argument returns null;
otherwise the element count `n` is read from the ABI cookie
(`ABI::arraySize`), a block of `n` elements is allocated (`ABI::newArray`,
assumed to succeed — allocation failure is outside the claims), and the
elements are constructed in order; if the operation at index `k` throws, the
already-built elements are destructed in reverse order (`std::terminate` if
one of those destructors throws), the block is freed (`ABI::delArray`) and
the original exception is re-raised. A non-null argument is `some n` with `n`
its cookie count. -/
def arrayReplicate (elemOk dtorOk : Nat → Bool) : Option Nat → List Ev × ArrOutcome
  | none => ([], ArrOutcome.retNull)
  | some n =>
    match buildFrom elemOk 0 n with
    | (evs, none) => (Ev.query n :: Ev.alloc n :: evs, ArrOutcome.retNew)
    | (evs, some k) =>
      match rollback dtorOk k with
      | (revs, true) =>
        (Ev.query n :: Ev.alloc n :: (evs ++ revs ++ [Ev.free]), ArrOutcome.raised k)
      | (revs, false) =>
        (Ev.query n :: Ev.alloc n :: (evs ++ revs), ArrOutcome.term)

/-- `default_copy<T[], ABI>::replicate` (value_ptr.h lines 633-655):
`elemOk` is the behaviour of the element copy-constructions
`new(ret + i) T{p[i]}`. -/
def default_copy_arr_replicate (copyOk dtorOk : Nat → Bool) (p : Option Nat) :
    List Ev × ArrOutcome :=
  arrayReplicate copyOk dtorOk p

/-- `default_clone<T[], ABI>::replicate` (value_ptr.h lines 716-738):
`elemOk` is the behaviour of the placement clones `(p + i)->clone(ret + i)`. -/
def default_clone_arr_replicate (cloneOk dtorOk : Nat → Bool) (p : Option Nat) :
    List Ev × ArrOutcome :=
  arrayReplicate cloneOk dtorOk p

/-- The shared body of the fixed-extent `default_copy<T[N], ABI>::replicate`
(value_ptr.h lines 667-689) and `default_clone<T[N], ABI>::replicate`
(lines 750-772): the same loop as the open-array form, but the count is the
compile-time extent `N` and `ABI::arraySize` is never called; the value of a
non-null argument is irrelevant. -/
def arrayReplicateN (elemOk dtorOk : Nat → Bool) (N : Nat) : Option Nat → List Ev × ArrOutcome
  | none => ([], ArrOutcome.retNull)
  | some _ =>
    match buildFrom elemOk 0 N with
    | (evs, none) => (Ev.alloc N :: evs, ArrOutcome.retNew)
    | (evs, some k) =>
      match rollback dtorOk k with
      | (revs, true) => (Ev.alloc N :: (evs ++ revs ++ [Ev.free]), ArrOutcome.raised k)
      | (revs, false) => (Ev.alloc N :: (evs ++ revs), ArrOutcome.term)

/-- `default_copy<T[N], ABI>::replicate` (value_ptr.h lines 667-689). -/
def default_copy_arrN_replicate (copyOk dtorOk : Nat → Bool) (N : Nat) (p : Option Nat) :
    List Ev × ArrOutcome :=
  arrayReplicateN copyOk dtorOk N p

/-- `default_clone<T[N], ABI>::replicate` (value_ptr.h lines 750-772). -/
def default_clone_arrN_replicate (cloneOk dtorOk : Nat → Bool) (N : Nat) (p : Option Nat) :
    List Ev × ArrOutcome :=
  arrayReplicateN cloneOk dtorOk N p

/-- `default_destroy<T[], ABI>::destroy` (value_ptr.h lines 552-574): null is
a no-op; otherwise the count `n` is read from the ABI cookie and indices
`n-1, …, 0` are destructed, then the block is freed. If the destructor at
index `j` throws, the remaining indices are destructed each wrapped in a
try/terminate, the block is freed and the first exception is re-raised; a
second throwing destructor reaches `std::terminate` instead. -/
def default_destroy_arr (dtorOk : Nat → Bool) : Option Nat → List Ev × DOutcome
  | none => ([], DOutcome.ok)
  | some n =>
    match destroyFrom dtorOk n with
    | (evs, none) => (Ev.query n :: (evs ++ [Ev.free]), DOutcome.ok)
    | (evs, some j) =>
      match rollback dtorOk j with
      | (revs, true) => (Ev.query n :: (evs ++ revs ++ [Ev.free]), DOutcome.raised j)
      | (revs, false) => (Ev.query n :: (evs ++ revs), DOutcome.term)

/-- `default_destroy<T[N], ABI>::destroy` (value_ptr.h lines 584-606): as the
open-array form, but the count is the compile-time extent `N` and
`ABI::arraySize` is never called. -/
def default_destroy_arrN (dtorOk : Nat → Bool) (N : Nat) : Option Nat → List Ev × DOutcome
  | none => ([], DOutcome.ok)
  | some _ =>
    match destroyFrom dtorOk N with
    | (evs, none) => (evs ++ [Ev.free], DOutcome.ok)
    | (evs, some j) =>
      match rollback dtorOk j with
      | (revs, true) => (evs ++ revs ++ [Ev.free], DOutcome.raised j)
      | (revs, false) => (evs ++ revs, DOutcome.term)

/-- `default_copy<T, ABI>::replicate` (value_ptr.h lines 618-621):
`return nullptr != p ? new T{*p} : nullptr;` — `copyNew a` is the address of
the copy made from the object at address `a`. -/
def default_copy_replicate (copyNew : Nat → Nat) : Option Nat → Option Nat
  | some a => some (copyNew a)
  | none => none

/-- `default_clone<T, ABI>::replicate` (value_ptr.h lines 701-704):
`return nullptr != p ? p->clone() : nullptr;`. -/
def default_clone_replicate (cloneNew : Nat → Nat) : Option Nat → Option Nat
  | some a => some (cloneNew a)
  | none => none

/-- `default_destroy<T, ABI>::destroy` (value_ptr.h lines 537-542):
`delete p;` — `delete nullptr` is a no-op by the language, so no event is
emitted for a null argument. -/
def default_destroy_scalar : Option Nat → List Ev
  | some _ => [Ev.delScalar]
  | none => []

/-- A pointer value of the handle model; `none` is nullptr. -/
abbrev Ptr := Option Nat

/-- Calls a `value_ptr` makes into its handler (the policy bundle). -/
inductive PEffect where
  | destroyCall (p : Ptr)
  | replicateCall (p : Ptr)
deriving DecidableEq

/-- The state of a `value_ptr`: the internal tuple `c` of the held pointer
and the handler. The handler is opaque here, carried as a `Nat`, so theorems
can state whether it is modified. -/
structure Vptr where
  ptr : Ptr
  handler : Nat
deriving DecidableEq

/-- `value_ptr::release` (value_ptr.hpp lines 391-392): return the held
pointer and null the internal pointer; no handler call is made and the
handler component is untouched. -/
def Vptr.release (s : Vptr) : Ptr × Vptr × List PEffect :=
  (s.ptr, ⟨none, s.handler⟩, [])

/-- `value_ptr::reset` (value_ptr.hpp lines 399-400): `if (p != get()) {
get_handler().destroy(get()); std::get<0>(c) = p; }` — destroy the held
pointer through the handler and store `p` when they differ, do nothing when
they are equal. The method is `noexcept`, which the model reflects by being a
total function with no exceptional outcome. -/
def Vptr.reset (s : Vptr) (p : Ptr) : Vptr × List PEffect :=
  if p ≠ s.ptr then (⟨p, s.handler⟩, [PEffect.destroyCall s.ptr]) else (s, [])

/-- `value_ptr::~value_ptr` (value_ptr.hpp lines 307-308): the destructor
merely resets. -/
def Vptr.dtor (s : Vptr) : Vptr × List PEffect :=
  s.reset none

/-- The move constructor (value_ptr.hpp lines 38-39): delegates to the master
constructor with `other.release()` and the moved handler. Returns the new
handle, the moved-from handle, and the handler calls made (none). -/
def Vptr.moveCtor (other : Vptr) : Vptr × Vptr × List PEffect :=
  let r := other.release
  (⟨r.1, other.handler⟩, r.2.1, r.2.2)

/-- The copy constructor (value_ptr.hpp lines 27-28): delegates to the master
constructor with `other.get_handler().replicate(other.get())` and a copy of
the handler. `r` is the outcome of that replication: `Except.ok q` means it
returned the pointer `q`; `Except.error ()` that it threw, in which case no
handle is constructed and the exception propagates. -/
def Vptr.copyCtor (other : Vptr) (r : Except Unit Ptr) : Except Unit Vptr × List PEffect :=
  match r with
  | Except.ok q => (Except.ok ⟨q, other.handler⟩, [PEffect.replicateCall other.ptr])
  | Except.error e => (Except.error e, [PEffect.replicateCall other.ptr])

/-- `value_ptr::swap` (value_ptr.hpp lines 407-409): exchanges the whole
internal tuple `c` (pointer and handler) of the two handles. -/
def Vptr.swapWith (a b : Vptr) : Vptr × Vptr :=
  (b, a)

/-- The copy-assignment operator (value_ptr.hpp lines 244-249):
`value_ptr<T, H> tmp = other; swap(tmp); return *this;` — the local `tmp` is
destroyed at scope end, destroying what it then holds (the destination's old
state). If the replication inside the copy construction of `tmp` throws,
nothing has been swapped and the exception propagates. Returns the new
destination state, the (unchanged) source state, and the handler calls. -/
def Vptr.copyAssign (dest other : Vptr) (r : Except Unit Ptr) : Vptr × Vptr × List PEffect :=
  match Vptr.copyCtor other r with
  | (Except.error _, evs) => (dest, other, evs)
  | (Except.ok tmp, evs) =>
    let sw := Vptr.swapWith dest tmp
    let d := sw.2.dtor
    (sw.1, other, evs ++ d.2)

/-- A parameter of a C++ method, as the clone detector observes it: whether
its type is `void *` and whether it has a default argument. -/
structure CParam where
  isVoidPtr : Bool
  hasDefault : Bool
deriving DecidableEq

/-- The method named `clone` that name lookup (`&T::clone`) finds on a class,
possibly inherited. For an inherited method the pointer to member `&T::clone`
has type `R *(S::*)(U...) const` with `S` the class that *declares* the
method, so the detector's deduction observes `S`, not `T`; the model records,
next to the method's constness and parameter list, the pointee `R` of its
pointer return type (id and `sizeof(R)`) and the deduced declaring class `S`
(id, `sizeof(S)`, and the ids of its bases). -/
structure CloneMethod where
  isConst : Bool
  params : List CParam
  retId : Nat
  retSize : Nat
  ownerId : Nat
  ownerSize : Nat
  ownerBaseIds : List Nat
deriving DecidableEq

/-- A C++ class as the clone detector observes it: identity, `sizeof`,
`std::is_polymorphic`, the ids of its base classes, and the `clone` method
found by name lookup (`none` when there is none). -/
structure CppClass where
  id : Nat
  size : Nat
  polymorphic : Bool
  baseIds : List Nat
  clone : Option CloneMethod
deriving DecidableEq

/-- The types the detector is instantiated at: a class `T`, an open array
`T[]`, or a fixed array `T[N]`. -/
inductive CppType where
  | cls (c : CppClass)
  | arr (c : CppClass)
  | arrN (c : CppClass) (n : Nat)
deriving DecidableEq

/-- `std::is_base_of<R, S>`: true when `R` is `S` itself or among its
bases. -/
def isBaseOf (rId : Nat) (c : CppClass) : Bool :=
  rId == c.id || c.baseIds.contains rId

/-- `std::is_base_of<R, S>` with `S` the class deduced from the pointer to
member `&T::clone`, i.e. the class that declares the method: true when `R` is
that class itself or among its bases. -/
def ownerIsBaseOf (m : CloneMethod) : Bool :=
  m.retId == m.ownerId || m.ownerBaseIds.contains m.retId

/-- Whether `declval<S>().clone()` is well-formed: every parameter has a
default argument. -/
def zeroArgCallable (m : CloneMethod) : Bool :=
  m.params.all (fun q => q.hasDefault)

/-- Whether the signature matches the parameter part of the pattern
`R *(S::*)(void *, U...) const`: there is a leading parameter of type
`void *`. -/
def firstParamVoidPtr (m : CloneMethod) : Bool :=
  match m.params with
  | [] => false
  | q :: _ => q.isVoidPtr

/-- Whether `declval<S>().clone(nullptr)` is well-formed given a leading
`void *` parameter: the parameters after the leading one all have default
arguments. -/
def restDefaulted (m : CloneMethod) : Bool :=
  match m.params with
  | [] => true
  | _ :: rest => rest.all (fun q => q.hasDefault)

/-- `is_placement_cloneable<T>` (Cloneable.h lines 29-118): a class is
placement cloneable iff it is polymorphic and the `clone` method found by
name lookup matches `R *(S::*)(void *, U...) const` — where the deduction of
`S` from `&T::clone` yields the class that declares the method — and
satisfies `sizeof(R) == sizeof(S) && is_base_of<R, S>::value && is_same<R *,
decltype(std::declval<S>().clone(nullptr))>::value` (the call being valid
exactly when the trailing parameters are defaulted). Both size and base
checks are thus against the declaring class `S`, not against `T`. The `T[]`
and `T[N]` specializations (lines 96-118) are always false. -/
def is_placement_cloneable : CppType → Bool
  | CppType.cls c =>
    c.polymorphic &&
      match c.clone with
      | none => false
      | some m =>
        m.isConst && firstParamVoidPtr m &&
          (m.retSize == m.ownerSize && ownerIsBaseOf m && restDefaulted m)
  | CppType.arr _ => false
  | CppType.arrN _ _ => false

/-- `is_cloneable<T>` (Cloneable.h lines 132-221): a class is cloneable iff
it is polymorphic and the `clone` method found by name lookup matches
`R *(S::*)(U...) const` — where the deduction of `S` from `&T::clone` yields
the class that declares the method, which for an inherited clone is the base
that declared it, not `T` — and satisfies `sizeof(R) == sizeof(S) &&
is_base_of<R, S>::value && is_same<R *,
decltype(std::declval<S>().clone())>::value` (the zero-argument call being
valid exactly when all parameters are defaulted). Both size and base checks
are thus against the declaring class `S`, so an unchanged inherited clone
passes them whenever the declaring base's own clone does, whatever
`sizeof(T)` is. The `T[]` and `T[N]` specializations (lines 199-221) instead
hold iff the element type is placement cloneable. -/
def is_cloneable : CppType → Bool
  | CppType.cls c =>
    c.polymorphic &&
      match c.clone with
      | none => false
      | some m =>
        m.isConst && (m.retSize == m.ownerSize && ownerIsBaseOf m && zeroArgCallable m)
  | CppType.arr c => is_placement_cloneable (CppType.cls c)
  | CppType.arrN c _ => is_placement_cloneable (CppType.cls c)

/-- Modelled from the spec wording of claim C6 exactly as stated: the clone
detector holds for a type `T` iff `T` is polymorphic and `T` exposes a method
named clone, found possibly through inheritance, callable with zero required
arguments, const, and returning a pointer to a type `R` such that `R` is `T`
or a base of `T` and `sizeof(R)` equals `sizeof(T)` — size and base checks
against `T` itself. An array type is not polymorphic and exposes no methods,
so under this wording it is never cloneable. -/
def is_cloneable_spec : CppType → Bool
  | CppType.cls c =>
    c.polymorphic &&
      match c.clone with
      | none => false
      | some m =>
        zeroArgCallable m && m.isConst && (isBaseOf m.retId c && (m.retSize == c.size))
  | CppType.arr _ => false
  | CppType.arrN _ _ => false

/-- Modelled from the amended wording of claim C6 for non-array types: the
detector holds iff the type is polymorphic and the clone method found by name
lookup — declared, say, in class `S` (which is `T` itself unless the method is
inherited unchanged) — is const, callable with zero required arguments, and
returns a pointer to a type `R` such that `R` is `S` or a base of `S` and
`sizeof(R)` equals `sizeof(S)`. -/
def is_cloneable_amended_cls (c : CppClass) : Bool :=
  c.polymorphic &&
    match c.clone with
    | none => false
    | some m =>
      zeroArgCallable m && m.isConst && (ownerIsBaseOf m && (m.retSize == m.ownerSize))

/-- `std::is_polymorphic<T>` of the handled type: array types are not
polymorphic. -/
def isPolymorphicT : CppType → Bool
  | CppType.cls c => c.polymorphic
  | CppType.arr _ => false
  | CppType.arrN _ _ => false

/-- The two replication strategies of the default policies. -/
inductive Strategy where
  | copyCtor
  | cloneMethod
deriving DecidableEq

/-- `default_replicate<T, ABI, true>::slice_safe = true` (clone strategy) and
`default_replicate<T, ABI, false>::slice_safe = false` (copy strategy)
(main.cpp lines 431-455). -/
def sliceSafe : Strategy → Bool
  | Strategy.cloneMethod => true
  | Strategy.copyCtor => false

/-- The default strategy selection,
`use_clone = is_cloneable<T>::value` (main.cpp line 425). -/
def defaultStrategy (t : CppType) : Strategy :=
  if is_cloneable t then Strategy.cloneMethod else Strategy.copyCtor

/-- The `static_assert(!std::is_polymorphic<T>::value || H::slice_safe,
"would slice when copying")` performed by both master constructors
(value_ptr.hpp lines 435-462). -/
def masterCtorCheck (t : CppType) (s : Strategy) : Bool :=
  !isPolymorphicT t || sliceSafe s

/-- The public constructing paths of `value_ptr` (value_ptr.hpp lines
16-222): default, copy, move, templated copy and move, pointer with and
without an explicit handler, nullptr with and without a handler, and the
auto_ptr / unique_ptr / shared_ptr / weak_ptr converting constructors. -/
inductive CtorPath where
  | dfl
  | copy
  | move
  | tmplCopy
  | tmplMove
  | fromPtr
  | fromPtrH
  | fromNull
  | fromNullH
  | autoCopy
  | autoCopyH
  | autoMove
  | autoMoveH
  | uniqCopy
  | uniqCopyH
  | uniqMove
  | uniqMoveH
  | sharedCopy
  | sharedCopyH
  | weakCopy
  | weakCopyH
deriving DecidableEq

/-- Every public constructor delegates to one of the two master constructors
(value_ptr.hpp lines 16-222 all end in the master constructors of lines
435-462), so each constructing path compiles iff the master constructor's
static_assert holds for the chosen handler strategy. -/
def ctorCompiles (_path : CtorPath) (t : CppType) (s : Strategy) : Bool :=
  masterCtorCheck t s

/-- Whether the default handler with the given strategy itself instantiates:
`default_clone` static_asserts `is_cloneable<T>::value` (main.cpp line 345),
`default_copy` static_asserts `std::is_copy_constructible<T>::value`
(main.cpp line 257), the latter supplied here as a flag. -/
def handlerCompiles (t : CppType) (s : Strategy) (copyConstructible : Bool) : Bool :=
  match s with
  | Strategy.cloneMethod => is_cloneable t
  | Strategy.copyCtor => copyConstructible

/-- The test class `Base` of main.cpp (lines 49-70): polymorphic, with the
virtual method `Base *clone(void *p = nullptr) const` declared in `Base`
itself; modelled with id 0 and sizeof 8 (one vtable pointer), so the declaring
class observed by the deduction is `Base` as well. -/
def baseClass : CppClass :=
  ⟨0, 8, true, [], some ⟨true, [⟨true, true⟩], 0, 8, 0, 8, []⟩⟩

/-- The README's slicing discussion shaped as code:
`class A { int i; public: virtual A *clone() const; }` — polymorphic, id 1,
sizeof 16 (vtable pointer plus int with padding), declaring its own clone
with no parameters. -/
def classA : CppClass :=
  ⟨1, 16, true, [], some ⟨true, [], 1, 16, 1, 16, []⟩⟩

/-- `class C : public A { int extra; }` — id 2, sizeof 24, inheriting `A`'s
`clone` unchanged: name lookup on `C` finds `A`'s method, and the pointer to
member `&C::clone` deduces the declaring class `A` (id 1, sizeof 16). -/
def classC : CppClass :=
  ⟨2, 24, true, [1], some ⟨true, [], 1, 16, 1, 16, []⟩⟩

/-- A rollback over indices all of whose destructors return normally
destructs `k-1, …, 0` and completes. -/
theorem rollback_ok (dtorOk : Nat → Bool) :
    ∀ k, (∀ j, j < k → dtorOk j = true) →
      rollback dtorOk k = ((List.range k).reverse.map Ev.destruct, true) := by
  intro k
  induction k with
  | zero => intro _; simp [rollback]
  | succ k ih =>
    intro h
    have hk : dtorOk k = true := h k (Nat.lt_succ_self k)
    have ih2 := ih (fun j hj => h j (Nat.lt_succ_of_lt hj))
    simp [rollback, hk, ih2, List.range_succ]

/-- A construction loop all of whose element operations succeed constructs
`i, …, i+rem-1` and reports no failure. -/
theorem buildFrom_ok (elemOk : Nat → Bool) :
    ∀ rem i, (∀ t, i ≤ t → t < i + rem → elemOk t = true) →
      buildFrom elemOk i rem = ((List.range' i rem).map Ev.construct, none) := by
  intro rem
  induction rem with
  | zero => intro i _; simp [buildFrom]
  | succ rem ih =>
    intro i h
    have hi : elemOk i = true := h i (Nat.le_refl i) (by omega)
    have ih2 := ih (i + 1) (fun t ht1 ht2 => h t (by omega) (by omega))
    simp [buildFrom, hi, ih2, List.range'_succ]

/-- A construction loop whose element operation first fails at `k` constructs
exactly `i, …, k-1` and reports the failure at `k`. -/
theorem buildFrom_fail (elemOk : Nat → Bool) (k : Nat) (hk : elemOk k = false) :
    ∀ rem i, i ≤ k → k < i + rem → (∀ t, i ≤ t → t < k → elemOk t = true) →
      buildFrom elemOk i rem = ((List.range' i (k - i)).map Ev.construct, some k) := by
  intro rem
  induction rem with
  | zero => intro i h1 h2 _; omega
  | succ rem ih =>
    intro i h1 h2 h3
    rcases Nat.eq_or_lt_of_le h1 with he | hlt
    · subst he
      simp [buildFrom, hk]
    · have hi : elemOk i = true := h3 i (Nat.le_refl i) hlt
      have ih2 := ih (i + 1) hlt (by omega) (fun t ht1 ht2 => h3 t (by omega) ht2)
      have hki : k - i = (k - (i + 1)) + 1 := by omega
      simp [buildFrom, hi, ih2, hki, List.range'_succ]

/-- A destroy loop over indices all of whose destructors return normally
destructs `n-1, …, 0` and reports no throw. -/
theorem destroyFrom_ok (dtorOk : Nat → Bool) :
    ∀ n, (∀ j, j < n → dtorOk j = true) →
      destroyFrom dtorOk n = ((List.range n).reverse.map Ev.destruct, none) := by
  intro n
  induction n with
  | zero => intro _; simp [destroyFrom]
  | succ n ih =>
    intro h
    have hn : dtorOk n = true := h n (Nat.lt_succ_self n)
    have ih2 := ih (fun j hj => h j (Nat.lt_succ_of_lt hj))
    simp [destroyFrom, hn, ih2, List.range_succ]

/-- A destroy loop whose destructors return normally above `j` and throw at
`j` destructs exactly `n-1, …, j+1` and reports the throw at `j`. -/
theorem destroyFrom_fail (dtorOk : Nat → Bool) (j : Nat) (hj : dtorOk j = false) :
    ∀ n, j < n → (∀ t, j < t → t < n → dtorOk t = true) →
      destroyFrom dtorOk n
        = ((List.range' (j + 1) (n - j - 1)).reverse.map Ev.destruct, some j) := by
  intro n
  induction n with
  | zero => intro h _; omega
  | succ n ih =>
    intro h1 h2
    rcases Nat.lt_or_ge j n with hlt | hge
    · have hn : dtorOk n = true := h2 n hlt (Nat.lt_succ_self n)
      have ih2 := ih hlt (fun t ht1 ht2 => h2 t ht1 (Nat.lt_succ_of_lt ht2))
      have hrw : n + 1 - j - 1 = (n - j - 1) + 1 := by omega
      have hlast : j + 1 + 1 * (n - j - 1) = n := by omega
      rw [hrw, List.range'_concat, hlast]
      simp [destroyFrom, hn, ih2]
    · have hjn : j = n := by omega
      subst hjn
      simp [destroyFrom, hj]

/-- Every event of a construction loop is a `construct`. -/
theorem buildFrom_events (elemOk : Nat → Bool) :
    ∀ rem i e, e ∈ (buildFrom elemOk i rem).1 → ∃ t, e = Ev.construct t := by
  intro rem
  induction rem with
  | zero => intro i e he; simp [buildFrom] at he
  | succ rem ih =>
    intro i e he
    cases hi : elemOk i with
    | true =>
      rw [buildFrom] at he
      simp [hi] at he
      rcases he with he | he
      · exact ⟨i, he⟩
      · exact ih (i + 1) e he
    | false =>
      rw [buildFrom] at he
      simp [hi] at he

/-- Every event of a rollback loop is a `destruct`. -/
theorem rollback_events (dtorOk : Nat → Bool) :
    ∀ k e, e ∈ (rollback dtorOk k).1 → ∃ t, e = Ev.destruct t := by
  intro k
  induction k with
  | zero => intro e he; simp [rollback] at he
  | succ k ih =>
    intro e he
    cases hk : dtorOk k with
    | true =>
      rw [rollback] at he
      simp [hk] at he
      rcases he with he | he
      · exact ⟨k, he⟩
      · exact ih e he
    | false =>
      rw [rollback] at he
      simp [hk] at he

/-- Every event of a destroy try-loop is a `destruct`. -/
theorem destroyFrom_events (dtorOk : Nat → Bool) :
    ∀ n e, e ∈ (destroyFrom dtorOk n).1 → ∃ t, e = Ev.destruct t := by
  intro n
  induction n with
  | zero => intro e he; simp [destroyFrom] at he
  | succ n ih =>
    intro e he
    cases hn : dtorOk n with
    | true =>
      rw [destroyFrom] at he
      simp [hn] at he
      rcases he with he | he
      · exact ⟨n, he⟩
      · exact ih e he
    | false =>
      rw [destroyFrom] at he
      simp [hn] at he

/-- C1: during array replication through `default_copy<T[]>::replicate` and
`default_clone<T[]>::replicate`, if the element operation at index `k`
(`0 < k < n`) throws while all earlier ones succeeded (and the destructors of
the already-built elements return normally, as C++ destructors are expected
to), exactly the `k` already-constructed elements `0, …, k-1` are destructed
in reverse order, the block is freed through the ABI adapter, and the
original exception propagates; no never-constructed slot is destructed and
every constructed element is destructed (no leak). -/
theorem arr_replicate_rollback_on_throw
    (elemOk dtorOk : Nat → Bool) (n k : Nat)
    (hk0 : 0 < k) (hkn : k < n)
    (hpre : ∀ i, i < k → elemOk i = true)
    (hthrow : elemOk k = false)
    (hdt : ∀ j, j < k → dtorOk j = true) :
    default_copy_arr_replicate elemOk dtorOk (some n)
      = (Ev.query n :: Ev.alloc n ::
          ((List.range k).map Ev.construct ++ (List.range k).reverse.map Ev.destruct
            ++ [Ev.free]), ArrOutcome.raised k)
    ∧ default_clone_arr_replicate elemOk dtorOk (some n)
      = (Ev.query n :: Ev.alloc n ::
          ((List.range k).map Ev.construct ++ (List.range k).reverse.map Ev.destruct
            ++ [Ev.free]), ArrOutcome.raised k)
    ∧ (∀ j, Ev.destruct j ∈ (default_copy_arr_replicate elemOk dtorOk (some n)).1 → j < k)
    ∧ (∀ j, j < k → Ev.destruct j ∈ (default_copy_arr_replicate elemOk dtorOk (some n)).1) := by
  have hb := buildFrom_fail elemOk k hthrow n 0 (Nat.zero_le k) (by omega)
    (fun t _ ht2 => hpre t ht2)
  have hr := rollback_ok dtorOk k hdt
  have hmain : default_copy_arr_replicate elemOk dtorOk (some n)
      = (Ev.query n :: Ev.alloc n ::
          ((List.range k).map Ev.construct ++ (List.range k).reverse.map Ev.destruct
            ++ [Ev.free]), ArrOutcome.raised k) := by
    simp [default_copy_arr_replicate, arrayReplicate, hb, hr, List.range_eq_range']
  refine ⟨hmain, hmain, ?_, ?_⟩
  · intro j hj
    rw [hmain] at hj
    simp [List.mem_append, List.mem_map, List.mem_reverse, List.mem_range] at hj
    exact hj
  · intro j hj
    rw [hmain]
    simp [List.mem_append, List.mem_map, List.mem_reverse, List.mem_range]
    exact hj

/-- Witness for C1 at `n = 3`, `k = 1`: the copy-construction of element 1
throws; element 0 is destructed and the block is freed below the re-raise. -/
theorem arr_replicate_rollback_on_throw_w :
    default_copy_arr_replicate (fun i => i == 0) (fun _ => true) (some 3)
      = (Ev.query 3 :: Ev.alloc 3 ::
          ((List.range 1).map Ev.construct ++ (List.range 1).reverse.map Ev.destruct
            ++ [Ev.free]), ArrOutcome.raised 1) :=
  (arr_replicate_rollback_on_throw (fun i => i == 0) (fun _ => true) 3 1
    (by decide) (by decide) (by decide) (by decide) (by decide)).1

/-- C2 counterexample: with `n = 2` and every element destructor throwing,
the second throw happens during the cleanup of the first, reaching
`std::terminate` — the element at index 0 is never destructed, the block is
never freed, and no exception is re-raised, contrary to the claim that the
remaining elements are still destructed and the block still freed whenever
some destructor throws. -/
theorem destroy_arr_double_throw_cex :
    default_destroy_arr (fun _ => false) (some 2) = ([Ev.query 2], DOutcome.term)
    ∧ Ev.free ∉ (default_destroy_arr (fun _ => false) (some 2)).1
    ∧ Ev.destruct 0 ∉ (default_destroy_arr (fun _ => false) (some 2)).1 := by
  refine ⟨rfl, by decide, by decide⟩

/-- C2 amended: `default_destroy<T[]>::destroy` of null is a no-op; of a
non-null array of `n` elements with no throwing destructor it destructs
indices `n-1, …, 0` and then frees the block through the ABI adapter; if
exactly one element's destructor (at index `j`) throws, the remaining
elements are still destructed, the block is still freed, and that one
exception is re-raised after cleanup completes (so at most one exception
escapes); a second throwing destructor during that cleanup instead reaches
`std::terminate`. -/
theorem destroy_arr_spec (dtorOk : Nat → Bool) (n j : Nat) :
    default_destroy_arr dtorOk none = ([], DOutcome.ok)
    ∧ ((∀ i, i < n → dtorOk i = true) →
        default_destroy_arr dtorOk (some n)
          = (Ev.query n :: ((List.range n).reverse.map Ev.destruct ++ [Ev.free]),
             DOutcome.ok))
    ∧ (j < n → dtorOk j = false → (∀ i, i < n → i ≠ j → dtorOk i = true) →
        default_destroy_arr dtorOk (some n)
          = (Ev.query n ::
              ((List.range' (j + 1) (n - j - 1)).reverse.map Ev.destruct
                ++ (List.range j).reverse.map Ev.destruct ++ [Ev.free]),
             DOutcome.raised j)) := by
  refine ⟨rfl, ?_, ?_⟩
  · intro h
    have hd := destroyFrom_ok dtorOk n h
    simp [default_destroy_arr, hd]
  · intro h1 h2 h3
    have hd := destroyFrom_fail dtorOk j h2 n h1 (fun t ht1 ht2 => h3 t ht2 (by omega))
    have hr := rollback_ok dtorOk j (fun t ht => h3 t (by omega) (by omega))
    simp [default_destroy_arr, hd, hr]

/-- Witness for the amended C2 at `n = 3` with the destructor at index 1
throwing: indices 2 and 0 are destructed, the block is freed, the exception
of index 1 is re-raised. -/
theorem destroy_arr_spec_w :
    default_destroy_arr (fun i => !(i == 1)) (some 3)
      = (Ev.query 3 ::
          ((List.range' 2 1).reverse.map Ev.destruct
            ++ (List.range 1).reverse.map Ev.destruct ++ [Ev.free]),
         DOutcome.raised 1) :=
  (destroy_arr_spec (fun i => !(i == 1)) 3 1).2.2 (by decide) (by decide) (by decide)

/-- The non-templated copy-assignment (value_ptr.hpp lines 244-249) is
copy-and-swap as the claim describes: when the replication throws, both the
destination and the source are left untouched; when it returns a replica,
the destination takes the replica's state, the old state is destroyed
through the handler, and the source is untouched. -/
theorem copy_assign_copy_and_swap (dest other : Vptr) (q : Ptr) :
    Vptr.copyAssign dest other (Except.error ())
      = (dest, other, [PEffect.replicateCall other.ptr])
    ∧ (Vptr.copyAssign dest other (Except.ok q)).1 = (⟨q, other.handler⟩ : Vptr)
    ∧ (Vptr.copyAssign dest other (Except.ok q)).2.1 = other :=
  ⟨rfl, rfl, rfl⟩

/-- C4: every default policy maps null to null on replication, and destroying
null performs no action and does not throw — for the scalar, open-array and
fixed-extent forms of `default_copy`, `default_clone` and
`default_destroy`. -/
theorem null_round_trip (copyNew cloneNew : Nat → Nat) (elemOk dtorOk : Nat → Bool)
    (N : Nat) :
    default_copy_replicate copyNew none = none
    ∧ default_clone_replicate cloneNew none = none
    ∧ default_copy_arr_replicate elemOk dtorOk none = ([], ArrOutcome.retNull)
    ∧ default_clone_arr_replicate elemOk dtorOk none = ([], ArrOutcome.retNull)
    ∧ default_copy_arrN_replicate elemOk dtorOk N none = ([], ArrOutcome.retNull)
    ∧ default_clone_arrN_replicate elemOk dtorOk N none = ([], ArrOutcome.retNull)
    ∧ default_destroy_scalar none = []
    ∧ default_destroy_arr dtorOk none = ([], DOutcome.ok)
    ∧ default_destroy_arrN dtorOk N none = ([], DOutcome.ok) :=
  ⟨rfl, rfl, rfl, rfl, rfl, rfl, rfl, rfl, rfl⟩

/-- C5: on every constructing path, a polymorphic element type together with
the plain-copy strategy (whose `slice_safe` is false) fails the master
constructor's static_assert ("would slice when copying"); with the
clone strategy — whose handler is configurable exactly when the type is
cloneable — the check passes and the handler itself instantiates, so
construction succeeds. -/
theorem slice_safety_gate (t : CppType) (path : CtorPath)
    (hpoly : isPolymorphicT t = true) :
    ctorCompiles path t Strategy.copyCtor = false
    ∧ (is_cloneable t = true →
        ctorCompiles path t Strategy.cloneMethod = true
        ∧ handlerCompiles t Strategy.cloneMethod true = true) := by
  constructor
  · simp [ctorCompiles, masterCtorCheck, hpoly, sliceSafe]
  · intro hc
    exact ⟨by simp [ctorCompiles, masterCtorCheck, sliceSafe], by simp [handlerCompiles, hc]⟩

/-- Witness for C5 at the polymorphic, cloneable test class `Base` on the
copy-constructor path: rejected under the copy strategy, accepted under the
clone strategy. -/
theorem slice_safety_gate_w :
    ctorCompiles CtorPath.copy (CppType.cls baseClass) Strategy.copyCtor = false
    ∧ ctorCompiles CtorPath.copy (CppType.cls baseClass) Strategy.cloneMethod = true :=
  ⟨(slice_safety_gate (CppType.cls baseClass) CtorPath.copy (by decide)).1,
   ((slice_safety_gate (CppType.cls baseClass) CtorPath.copy (by decide)).2 (by decide)).1⟩

/-- C6 counterexample, refuting the claim's iff at two explicit inputs.
First, the class `C` inheriting `A`'s `A *clone() const` unchanged: the
source's size guard compares `sizeof(R)` with the size of the *declaring*
class deduced from `&C::clone` (that is, `sizeof(A)`), so `is_cloneable<C>`
is true, while the claim requires `sizeof(R)` to equal `sizeof(C)`, which
fails since `C` adds a field. Second, the array type `Base[]` over the
cloneable test class `Base`: `is_cloneable` is true (the array
specialization forwards to `is_placement_cloneable` of the element type)
while the claim's condition — that the type itself be polymorphic with a
suitable clone method — is false for an array type. -/
theorem is_cloneable_cex :
    is_cloneable (CppType.cls classC) = true
    ∧ is_cloneable_spec (CppType.cls classC) = false
    ∧ is_cloneable (CppType.arr baseClass) = true
    ∧ is_cloneable_spec (CppType.arr baseClass) = false := by
  decide

/-- C6 amended: for every non-array type the detector holds iff the type is
polymorphic and the clone method found by name lookup — declared in class
`S`, which is the type itself unless the method is inherited unchanged — is
const, callable with zero required arguments, and returns `R *` with `R`
equal to `S` or a base of `S` and `sizeof(R)` equal to `sizeof(S)` (the
guards are evaluated against the declaring class, not the queried type); for
array types `T[]` and `T[N]` the detector instead equals
`is_placement_cloneable` of the element type. -/
theorem is_cloneable_characterization (c : CppClass) (n : Nat) :
    is_cloneable (CppType.cls c) = is_cloneable_amended_cls c
    ∧ is_cloneable (CppType.arr c) = is_placement_cloneable (CppType.cls c)
    ∧ is_cloneable (CppType.arrN c n) = is_placement_cloneable (CppType.cls c) := by
  refine ⟨?_, rfl, rfl⟩
  cases hm : c.clone with
  | none => simp [is_cloneable, is_cloneable_amended_cls, hm]
  | some m =>
    simp only [is_cloneable, is_cloneable_amended_cls, hm]
    cases hp : c.polymorphic <;> cases hc : m.isConst <;> cases hz : zeroArgCallable m
      <;> cases hb : ownerIsBaseOf m <;> cases hs : (m.retSize == m.ownerSize)
      <;> simp [hp, hc, hz, hb, hs]

/-- C7: `reset(p)` destroys the held pointer through the handler and stores
`p` when `p` differs from it, is a no-op when `p` equals it (and the handler
component is unchanged in both cases); the destructor is exactly `reset()`.
`reset` is `noexcept`: the model is a total function with no exceptional
outcome. -/
theorem reset_spec (s : Vptr) (p : Ptr) :
    (p ≠ s.ptr → s.reset p = (⟨p, s.handler⟩, [PEffect.destroyCall s.ptr]))
    ∧ (p = s.ptr → s.reset p = (s, []))
    ∧ s.dtor = s.reset none := by
  refine ⟨?_, ?_, rfl⟩
  · intro h; simp [Vptr.reset, h]
  · intro h; simp [Vptr.reset, h]

/-- Witness for C7: resetting a handle holding address 5 to address 6
destroys 5 and stores 6; resetting it to 5 is a no-op. -/
theorem reset_spec_w :
    Vptr.reset ⟨some 5, 7⟩ (some 6) = (⟨some 6, 7⟩, [PEffect.destroyCall (some 5)])
    ∧ Vptr.reset ⟨some 5, 7⟩ (some 5) = (⟨some 5, 7⟩, []) :=
  ⟨(reset_spec ⟨some 5, 7⟩ (some 6)).1 (by decide),
   (reset_spec ⟨some 5, 7⟩ (some 5)).2.1 rfl⟩

/-- C8: move construction transfers the pointer: the new handle holds exactly
the address the source held, the source is nulled, and no handler call (in
particular no replication and no allocation) is made. -/
theorem move_ctor_transfers (a : Vptr) (h : a.ptr ≠ none) :
    (a.moveCtor).1.ptr = a.ptr
    ∧ (a.moveCtor).2.1.ptr = none
    ∧ (a.moveCtor).2.2 = [] :=
  ⟨rfl, rfl, rfl⟩

/-- Witness for C8 at a handle holding address 4. -/
theorem move_ctor_transfers_w :
    (Vptr.moveCtor ⟨some 4, 9⟩).1.ptr = some 4
    ∧ (Vptr.moveCtor ⟨some 4, 9⟩).2.1.ptr = none :=
  ⟨(move_ctor_transfers ⟨some 4, 9⟩ (by decide)).1,
   (move_ctor_transfers ⟨some 4, 9⟩ (by decide)).2.1⟩

/-- C9: `release` returns the held pointer, nulls the internal pointer, makes
no handler call (in particular never invokes the destruction policy), and
leaves the handler component of the state unchanged. -/
theorem release_spec (s : Vptr) :
    (s.release).1 = s.ptr
    ∧ (s.release).2.1.ptr = none
    ∧ (s.release).2.1.handler = s.handler
    ∧ (s.release).2.2 = [] :=
  ⟨rfl, rfl, rfl, rfl⟩

/-- C10: for a fixed extent `N` the default policies loop over the
compile-time count: destruction destructs exactly indices `N-1, …, 0` and
then frees the block, replication allocates `N` slots and constructs exactly
indices `0, …, N-1`, and neither operation ever emits an ABI cookie query —
for any input and any element behaviour — which is what lets them work for
element types with trivial destructors, where no cookie exists. -/
theorem fixed_extent_spec (copyOk dtorOk : Nat → Bool) (N : Nat) (a : Nat) :
    ((∀ i, i < N → dtorOk i = true) →
      default_destroy_arrN dtorOk N (some a)
        = ((List.range N).reverse.map Ev.destruct ++ [Ev.free], DOutcome.ok))
    ∧ ((∀ i, i < N → copyOk i = true) →
      default_copy_arrN_replicate copyOk dtorOk N (some a)
        = (Ev.alloc N :: (List.range N).map Ev.construct, ArrOutcome.retNew))
    ∧ (∀ p m, Ev.query m ∉ (default_destroy_arrN dtorOk N p).1)
    ∧ (∀ p m, Ev.query m ∉ (default_copy_arrN_replicate copyOk dtorOk N p).1) := by
  refine ⟨?_, ?_, ?_, ?_⟩
  · intro h
    have hd := destroyFrom_ok dtorOk N h
    simp [default_destroy_arrN, hd]
  · intro h
    have hb := buildFrom_ok copyOk N 0 (fun t _ ht2 => h t (by omega))
    simp [default_copy_arrN_replicate, arrayReplicateN, hb, List.range_eq_range']
  · intro p m hmem
    cases p with
    | none => simp [default_destroy_arrN] at hmem
    | some a2 =>
      rcases hd : destroyFrom dtorOk N with ⟨evs, r⟩
      have hevs : ∀ e ∈ evs, ∃ t, e = Ev.destruct t := by
        intro e he
        exact destroyFrom_events dtorOk N e (by rw [hd]; exact he)
      cases r with
      | none =>
        simp only [default_destroy_arrN, hd] at hmem
        rcases List.mem_append.mp hmem with h | h
        · rcases hevs _ h with ⟨t, ht⟩; cases ht
        · simp at h
      | some j =>
        rcases hr : rollback dtorOk j with ⟨revs, b⟩
        have hrevs : ∀ e ∈ revs, ∃ t, e = Ev.destruct t := by
          intro e he
          exact rollback_events dtorOk j e (by rw [hr]; exact he)
        cases b with
        | true =>
          simp only [default_destroy_arrN, hd, hr] at hmem
          rcases List.mem_append.mp hmem with h | h
          · rcases List.mem_append.mp h with h2 | h2
            · rcases hevs _ h2 with ⟨t, ht⟩; cases ht
            · rcases hrevs _ h2 with ⟨t, ht⟩; cases ht
          · simp at h
        | false =>
          simp only [default_destroy_arrN, hd, hr] at hmem
          rcases List.mem_append.mp hmem with h | h
          · rcases hevs _ h with ⟨t, ht⟩; cases ht
          · rcases hrevs _ h with ⟨t, ht⟩; cases ht
  · intro p m hmem
    cases p with
    | none => simp [default_copy_arrN_replicate, arrayReplicateN] at hmem
    | some a2 =>
      rcases hb : buildFrom copyOk 0 N with ⟨evs, r⟩
      have hevs : ∀ e ∈ evs, ∃ t, e = Ev.construct t := by
        intro e he
        exact buildFrom_events copyOk N 0 e (by rw [hb]; exact he)
      cases r with
      | none =>
        simp only [default_copy_arrN_replicate, arrayReplicateN, hb] at hmem
        rcases List.mem_cons.mp hmem with h | h
        · cases h
        · rcases hevs _ h with ⟨t, ht⟩; cases ht
      | some j =>
        rcases hr : rollback dtorOk j with ⟨revs, b⟩
        have hrevs : ∀ e ∈ revs, ∃ t, e = Ev.destruct t := by
          intro e he
          exact rollback_events dtorOk j e (by rw [hr]; exact he)
        cases b with
        | true =>
          simp only [default_copy_arrN_replicate, arrayReplicateN, hb, hr] at hmem
          rcases List.mem_cons.mp hmem with h | h
          · cases h
          · rcases List.mem_append.mp h with h2 | h2
            · rcases List.mem_append.mp h2 with h3 | h3
              · rcases hevs _ h3 with ⟨t, ht⟩; cases ht
              · rcases hrevs _ h3 with ⟨t, ht⟩; cases ht
            · simp at h2
        | false =>
          simp only [default_copy_arrN_replicate, arrayReplicateN, hb, hr] at hmem
          rcases List.mem_cons.mp hmem with h | h
          · cases h
          · rcases List.mem_append.mp h with h2 | h2
            · rcases hevs _ h2 with ⟨t, ht⟩; cases ht
            · rcases hrevs _ h2 with ⟨t, ht⟩; cases ht

/-- Witness for C10 at `N = 3` with well-behaved elements. -/
theorem fixed_extent_spec_w :
    default_destroy_arrN (fun _ => true) 3 (some 0)
      = ((List.range 3).reverse.map Ev.destruct ++ [Ev.free], DOutcome.ok)
    ∧ default_copy_arrN_replicate (fun _ => true) (fun _ => true) 3 (some 0)
      = (Ev.alloc 3 :: (List.range 3).map Ev.construct, ArrOutcome.retNew) :=
  ⟨(fixed_extent_spec (fun _ => true) (fun _ => true) 3 0).1 (by decide),
   (fixed_extent_spec (fun _ => true) (fun _ => true) 3 0).2.1 (by decide)⟩

end ValuePtr
